import Mathlib

/-!
Verification development for `spare_scores/mlp_torch.py`.

The Python module is shallowly embedded below:
  * Python runtime values that flow through keyword arguments and object
    attributes are modelled by `PyV`; Python exceptions by `PyErr`.
  * The dynamic attribute dictionary (`self.__dict__`) of `MLPTorchModel`
    is modelled as an insertion-ordered association list (`Attrs`) with
    update-or-append semantics, exactly Python's attribute-assignment
    behaviour.
  * `MLPTorchModel.__init__` is embedded as `mlpTorchModelInit`,
    `SimpleMLP.__init__` as `SimpleMLP.init`, `SimpleMLP.forward` at the
    level of its layer trace (`forwardOps`) together with tensor-shape
    semantics (`forwardShape`), and `MLPTorchModel.get_all_stats`'s
    classification branch as `getAllStatsClassification`.
Numbers that are floating point in the source are represented by `ℚ`;
the possible NaN outcome of numpy's division is represented by `Option ℚ`
(`none` = NaN), with none-propagating arithmetic mirroring NaN
propagation.
-/

namespace SpareScores

/-- Python runtime values appearing in the module's kwargs/attributes. -/
inductive PyV where
  | int (n : Int)
  | float (q : ℚ)
  | str (s : String)
  | bool (b : Bool)
  | pynone
deriving DecidableEq

/-- Python truthiness (`if v:`) for the values of `PyV`. -/
def PyV.truthy : PyV → Bool
  | .int n => n ≠ 0
  | .float q => q ≠ 0
  | .str s => s ≠ ""
  | .bool b => b
  | .pynone => false

/-- The Python exceptions that the embedded code paths can raise. -/
inductive PyErr where
  | valueError (msg : String)
  | typeError
  | attributeError
deriving DecidableEq

/-- Decimal digit value of a character, if it is a digit. -/
def pyDigit? (c : Char) : Option Nat :=
  if 48 ≤ c.toNat ∧ c.toNat ≤ 57 then some (c.toNat - 48) else none

/-- Accumulating decimal parser over a character list: `none` as soon as
a non-digit appears. -/
def pyNatAux : List Char → Nat → Option Nat
  | [], acc => some acc
  | c :: cs, acc =>
      match pyDigit? c with
      | some d => pyNatAux cs (acc * 10 + d)
      | none => none

/-- Python `int(s)` on a string: an optional sign followed by a nonempty
run of decimal digits; everything else is a `ValueError`. -/
def strToIntPy (s : String) : Option Int :=
  match s.data with
  | [] => none
  | '-' :: cs => if cs = [] then none else (pyNatAux cs 0).map (fun n => -(n : Int))
  | '+' :: cs => if cs = [] then none else (pyNatAux cs 0).map (fun n => (n : Int))
  | cs => (pyNatAux cs 0).map (fun n => (n : Int))

/-- Python `int(v)`: identity on ints, truncation toward zero on floats,
decimal-literal parsing on strings (`ValueError` on failure), and
`TypeError` on `None`. -/
def PyV.toIntPy : PyV → Except PyErr Int
  | .int n => .ok n
  | .bool b => .ok (if b then 1 else 0)
  | .float q => .ok (if 0 ≤ q then ⌊q⌋ else ⌈q⌉)
  | .str s =>
      match strToIntPy s with
      | some n => .ok n
      | none => .error (.valueError "invalid literal for int")
  | .pynone => .error .typeError

/-- The object's `__dict__`: insertion-ordered name/value pairs. -/
abbrev Attrs := List (String × PyV)

/-- Attribute assignment: update in place if the name exists, else append
(Python dict update semantics). -/
def setAttr : Attrs → String → PyV → Attrs
  | [], k, v => [(k, v)]
  | (k0, v0) :: rest, k, v =>
      if k0 = k then (k, v) :: rest else (k0, v0) :: setAttr rest k v

/-- Attribute lookup. -/
def getAttr : Attrs → String → Option PyV
  | [], _ => none
  | (k0, v0) :: rest, k => if k0 = k then some v0 else getAttr rest k

theorem getAttr_setAttr_self (a : Attrs) (k : String) (v : PyV) :
    getAttr (setAttr a k v) k = some v := by
  induction a with
  | nil => simp [setAttr, getAttr]
  | cons hd tl ih =>
      by_cases h : hd.1 = k
      · simp [setAttr, getAttr, h]
      · simp [setAttr, getAttr, h, ih]

theorem getAttr_setAttr_ne (a : Attrs) {k k2 : String} (v : PyV) (h : k2 ≠ k) :
    getAttr (setAttr a k v) k2 = getAttr a k2 := by
  have h1 : ¬ (k = k2) := fun hc => h hc.symm
  induction a with
  | nil => simp [setAttr, getAttr, h1]
  | cons hd tl ih =>
      obtain ⟨k0, v0⟩ := hd
      by_cases h0 : k0 = k
      · subst h0
        simp [setAttr, getAttr, h1]
      · by_cases h2 : k0 = k2
        · simp [setAttr, getAttr, h0, h2, h]
        · simp [setAttr, getAttr, h0, h2, ih]

/-- `valid_parameters` of `MLPTorchModel.__init__` (line 115). -/
def validParameters : List String := ["task", "gpu", "cpu", "bs", "num_epoches"]

/-- Warning printed by all four integer-conversion `except ValueError`
branches (the source reuses the gpu message verbatim). -/
def intWarnMsg : String := "Parameter: # of gpu should be integer"

/-- One `try: self.<name> = int(kwargs[parameter]) except ValueError: print(...)`
block: assigns the converted integer on success, logs the warning when
`int()` raises `ValueError`, and propagates any other exception
(e.g. `TypeError` for `None`). -/
def tryIntAssign (attrs : Attrs) (log : List String) (name : String) (v : PyV) :
    Except PyErr (Attrs × List String) :=
  match v.toIntPy with
  | .ok n => .ok (setAttr attrs name (.int n), log)
  | .error (.valueError _) => .ok (attrs, log ++ [intWarnMsg])
  | .error e => .error e

/-- One iteration of the `for parameter in kwargs.keys():` loop of
`MLPTorchModel.__init__` (lines 117-157).  Note the source's slips kept
faithfully: the `cpu` branch assigns `self.gpu`; the `bs` branch assigns
`self.batch_size` and the `num_epoches` branch `self.num_epochs`; and the
trailing `self.__dict__.update({parameter: kwargs[parameter]})` stores the
raw kwarg value under the parameter's own name for every recognized
parameter except `task` (which `continue`s before reaching it). -/
def initStep (st : Attrs × List String) (kv : String × PyV) :
    Except PyErr (Attrs × List String) :=
  let attrs := st.1
  let log := st.2
  let k := kv.1
  let v := kv.2
  if k ∈ validParameters then
    if k = "task" then
      if v = .str "Classification" ∨ v = .str "Regression" then
        .ok (setAttr attrs "task" v, log)
      else
        .error (.valueError "Only Classification and Regression tasks are supported.")
    else
      match
        (if k = "gpu" then tryIntAssign attrs log "gpu" v
         else if k = "cpu" then tryIntAssign attrs log "gpu" v
         else if k = "bs" then tryIntAssign attrs log "batch_size" v
         else if k = "num_epoches" then tryIntAssign attrs log "num_epochs" v
         else .ok (attrs, log)) with
      | .ok (attrs1, log1) => .ok (setAttr attrs1 k v, log1)
      | .error e => .error e
  else
    .ok (attrs, log ++ ["Parameter '" ++ k ++ "' is not accepted for MLPModel. Ignoring..."])

/-- `MLPTorchModel.__init__` (lines 107-194), restricted to the
kwargs-derived state (the positional `predictors`/`to_predict`/`key_var`
attributes play no role in the claims).  After the kwargs loop the source
sets defaults guarded by key-membership tests — note that the batch-size
and epoch-count defaults test the keys `batch_size` and `num_epochs`,
not the accepted option names `bs` and `num_epoches` — and then the
MODEL SETTING block initialises `classification`, `mdl`, `scaler`,
`stats`, `param` (the `None`-valued fields a later `predict` relies on).
Returns the attribute dictionary and the list of printed warnings, or
the raised exception. -/
def mlpTorchModelInit (kwargs : List (String × PyV)) :
    Except PyErr (Attrs × List String) :=
  match kwargs.foldlM initStep (([] : Attrs), ([] : List String)) with
  | .error e => .error e
  | .ok (attrs, log) =>
      let keys := kwargs.map Prod.fst
      let attrs := if keys.contains "task" then attrs else setAttr attrs "task" (.str "Regression")
      let attrs := if keys.contains "gpu" then attrs else setAttr attrs "gpu" (.int 1)
      let attrs := if keys.contains "cpu" then attrs else setAttr attrs "cpu" (.int 1)
      let attrs := if keys.contains "batch_size" then attrs else setAttr attrs "batch_size" (.int 128)
      let attrs := if keys.contains "num_epochs" then attrs else setAttr attrs "num_epochs" (.int 100)
      let cls : Bool := getAttr attrs "task" = some (.str "Classification")
      let attrs := setAttr attrs "classification" (.bool cls)
      let attrs := setAttr attrs "mdl" .pynone
      let attrs := setAttr attrs "scaler" .pynone
      let attrs := setAttr attrs "stats" .pynone
      let attrs := setAttr attrs "param" .pynone
      .ok (attrs, log)

/-- The stored-state accesses performed by `MLPTorchModel.predict`
(lines 424-436) before any numeric work: `self.scaler.transform(...)`
raises `AttributeError` when `scaler` is still `None`, and
`self.mdl.load_state_dict(...)` raises when `mdl` is still `None`.
The numeric forward pass itself is out of scope; `ok` means the method
gets past every access to fit-produced state. -/
def predictStoredAccess (attrs : Attrs) : Except PyErr Unit :=
  match getAttr attrs "scaler" with
  | some .pynone => .error .attributeError
  | none => .error .attributeError
  | some _ =>
      match getAttr attrs "mdl" with
      | some .pynone => .error .attributeError
      | none => .error .attributeError
      | some _ => .ok ()

/-! ### The Predictor Network (`SimpleMLP`) -/

/-- An `nn.Linear(in_features, out_features)` layer, at the level of its
dimensions. -/
structure LinearLayer where
  inFeatures : Nat
  outFeatures : Nat
deriving DecidableEq

/-- An `nn.InstanceNorm1d` / `nn.BatchNorm1d` layer, at the level of its
kind, channel count and epsilon. -/
inductive NormLayer where
  | instanceNorm (numFeatures : Nat) (eps : ℚ)
  | batchNorm (numFeatures : Nat) (eps : ℚ)
deriving DecidableEq

/-- Channel count of a normalization layer. -/
def NormLayer.numFeatures : NormLayer → Nat
  | .instanceNorm c _ => c
  | .batchNorm c _ => c

/-- An `nn.Dropout(p = ...)` layer. -/
structure DropoutLayer where
  p : ℚ
deriving DecidableEq

/-- The module attributes of `SimpleMLP` after `__init__` finishes. -/
structure SimpleMLP where
  num_features : Nat
  hidden_size : Nat
  classification : Bool
  use_bn : PyV
  linear1 : LinearLayer
  norm1 : NormLayer
  linear2 : LinearLayer
  norm2 : NormLayer
  linear3 : LinearLayer
  dropout : DropoutLayer
deriving DecidableEq

/-- `SimpleMLP.__init__` (lines 38-57).  The `dropout` argument is first
stored into `self.dropout` and then the attribute is overwritten by
`self.dropout = nn.Dropout(p = 0.2)` on line 56, so the final `dropout`
attribute is the layer with hardcoded probability `0.2` whatever the
argument was; the argument is therefore unused in the final state.
`bn != 'bn'` selects `InstanceNorm1d`, otherwise `BatchNorm1d`, both
with `eps = 1e-15`.  Integer division `hidden_size // 2` is `Nat`
division. -/
def SimpleMLP.init (num_features hidden_size : Nat) (classification : Bool)
    (dropout : ℚ) (use_bn : PyV) (bn : String) : SimpleMLP :=
  { num_features := num_features
    hidden_size := hidden_size
    classification := classification
    use_bn := use_bn
    linear1 := ⟨num_features, hidden_size⟩
    norm1 := if bn ≠ "bn" then .instanceNorm hidden_size (1 / 10 ^ 15)
             else .batchNorm hidden_size (1 / 10 ^ 15)
    linear2 := ⟨hidden_size, hidden_size / 2⟩
    norm2 := if bn ≠ "bn" then .instanceNorm (hidden_size / 2) (1 / 10 ^ 15)
             else .batchNorm (hidden_size / 2) (1 / 10 ^ 15)
    linear3 := ⟨hidden_size / 2, 1⟩
    -- self.dropout = nn.Dropout(p = 0.2): overwrites the `dropout` argument
    dropout := ⟨1 / 5⟩ }

/-- One tensor operation applied by `SimpleMLP.forward`. -/
inductive TOp where
  | linear (l : LinearLayer)
  | norm (n : NormLayer)
  | relu
  | dropoutOp (p : ℚ)
  | sigmoid
  | squeezeOp
deriving DecidableEq

/-- Whether an operation is a normalization layer. -/
def TOp.isNorm : TOp → Bool
  | .norm _ => true
  | _ => false

/-- The sequence of tensor operations executed by `SimpleMLP.forward`
(lines 59-81): the normalization layers run exactly when the Python test
`if self.use_bn:` succeeds, i.e. when the attribute is truthy; the final
activation is sigmoid for classification and ReLU otherwise; the result
is squeezed. -/
def SimpleMLP.forwardOps (m : SimpleMLP) : List TOp :=
  [TOp.linear m.linear1]
    ++ (if m.use_bn.truthy then [TOp.norm m.norm1] else [])
    ++ [TOp.relu, TOp.dropoutOp m.dropout.p]
    ++ [TOp.linear m.linear2]
    ++ (if m.use_bn.truthy then [TOp.norm m.norm2] else [])
    ++ [TOp.relu, TOp.dropoutOp m.dropout.p]
    ++ [TOp.linear m.linear3]
    ++ (if m.classification then [TOp.sigmoid] else [TOp.relu])
    ++ [TOp.squeezeOp]

/-- A tensor shape (list of dimension sizes). -/
abbrev Shape := List Nat

/-- Shape semantics of one operation, for the 2-D `(batch, features)`
batches this module feeds through the network: a linear layer requires
its input-feature count in the last position and replaces it with its
output count; normalization layers accept `(N, C)` with `C` equal to
their channel count (evaluation-mode shape behaviour); ReLU, dropout and
sigmoid are elementwise; `squeeze()` removes every dimension of size 1. -/
def TOp.shapeMap : TOp → Shape → Option Shape
  | .linear l, s =>
      match s with
      | [b, d] => if d = l.inFeatures then some [b, l.outFeatures] else none
      | _ => none
  | .norm n, s =>
      match s with
      | [b, c] => if c = n.numFeatures then some [b, c] else none
      | _ => none
  | .relu, s => some s
  | .dropoutOp _, s => some s
  | .sigmoid, s => some s
  | .squeezeOp, s => some (s.filter (fun d => decide (d ≠ 1)))

/-- Shape of the result of `SimpleMLP.forward` on an input of the given
shape (`none` when some layer rejects its input shape). -/
def SimpleMLP.forwardShape (m : SimpleMLP) (s : Shape) : Option Shape :=
  m.forwardOps.foldlM (fun sh op => TOp.shapeMap op sh) s

/-! ### The hyperparameter search space (`self.config`, lines 187-193) -/

/-- `tune.choice([128, 256, 512])` for `hidden_size`. -/
def configSpaceHidden : List Nat := [128, 256, 512]

/-- `tune.choice([0.1, 0.2, 0.25, 0.5])` for `dropout`. -/
def configSpaceDropout : List ℚ := [1/10, 1/5, 1/4, 1/2]

/-- `tune.choice(['False', 'True'])` for `use_bn`: the sampled values are
the Python strings `'False'` and `'True'`, not booleans. -/
def configSpaceUseBn : List PyV := [.str "False", .str "True"]

/-- `tune.choice(['in', 'bn'])` for `bn`. -/
def configSpaceBn : List String := ["in", "bn"]

/-! ### The Metrics Evaluator (`MLPTorchModel.get_all_stats`, lines 196-241)

Only the classification branch is embedded: the regression branch's RMSE
takes a square root (irrational in general) and no claim is about it.
Ratio values are `Option ℚ`, with `none` standing for numpy's NaN; the
arithmetic on `Option ℚ` propagates `none` exactly as float arithmetic
propagates NaN. -/

/-- numpy true division of nonnegative counts: `0/0` (the only zero-
denominator case arising here) is NaN. -/
def odivQ (a b : ℚ) : Option ℚ := if b = 0 then none else some (a / b)

/-- NaN-propagating multiplication. -/
def omul : Option ℚ → Option ℚ → Option ℚ
  | some a, some b => some (a * b)
  | _, _ => none

/-- NaN-propagating addition. -/
def oadd : Option ℚ → Option ℚ → Option ℚ
  | some a, some b => some (a + b)
  | _, _ => none

/-- NaN-propagating division (also NaN when the denominator is zero). -/
def odivO : Option ℚ → Option ℚ → Option ℚ
  | some a, some b => odivQ a b
  | _, _ => none

/-- `np.where(y_hat >= 0.5, 1, 0)` applied to one score. -/
def thresholdLabel (s : ℚ) : ℚ := if 1/2 ≤ s then 1 else 0

/-- Contribution of one (positive-score, negative-score) pair to the
Mann-Whitney statistic: full credit when the positive outranks the
negative, half credit for a tie. -/
def aucCmp (s t : ℚ) : ℚ := if t < s then 1 else if s = t then 1/2 else 0

/-- The scores whose ground-truth label is 1. -/
def posScores (y yhat : List ℚ) : List ℚ :=
  (y.zip yhat).filterMap (fun p => if p.1 = 1 then some p.2 else none)

/-- The scores whose ground-truth label is 0. -/
def negScores (y yhat : List ℚ) : List ℚ :=
  (y.zip yhat).filterMap (fun p => if p.1 = 0 then some p.2 else none)

/-- `sklearn.metrics.roc_auc_score(y, y_hat)` for a binary target: raises
`ValueError` when `y` is not 0/1-valued or contains only one class;
otherwise the area under the ROC curve, which for binary labels equals
the normalized Mann-Whitney statistic (ties counted half). -/
def rocAucScore (y yhat : List ℚ) : Except PyErr ℚ :=
  if ∀ v ∈ y, v = 0 ∨ v = 1 then
    if (posScores y yhat).length = 0 ∨ (negScores y yhat).length = 0 then
      .error (.valueError "Only one class present in y_true. ROC AUC score is not defined in that case.")
    else
      .ok ((((posScores y yhat).map
              (fun s => ((negScores y yhat).map (fun t => aucCmp s t)).sum)).sum) /
            (((posScores y yhat).length : ℚ) * ((negScores y yhat).length : ℚ)))
  else .error (.valueError "continuous format of y_true is not supported")

/-- `confusion_matrix(y, y_hat).ravel()` unpacked into `tn, fp, fn, tp`,
specialised to the 0/1-valued inputs produced upstream (`y` was already
validated binary by `roc_auc_score` and `y_hat` thresholded to {0,1}):
sklearn builds the matrix over the sorted union of the labels occurring
in either argument, so the ravel-unpack into four values succeeds
exactly when both 0 and 1 occur, and the counts are the four pairwise
tallies. -/
def confusionCounts01 (y yhat : List ℚ) : Except PyErr (Nat × Nat × Nat × Nat) :=
  if (0 : ℚ) ∈ y ++ yhat ∧ (1 : ℚ) ∈ y ++ yhat then
    let p := y.zip yhat
    .ok (p.countP (fun q => q.1 == 0 && q.2 == 0),
         p.countP (fun q => q.1 == 0 && q.2 == 1),
         p.countP (fun q => q.1 == 1 && q.2 == 0),
         p.countP (fun q => q.1 == 1 && q.2 == 1))
  else .error (.valueError "not enough values to unpack")

/-- The classification scorecard returned by `get_all_stats`
(`none` = NaN). -/
structure ClsStats where
  accuracy : Option ℚ
  auc : Option ℚ
  sensitivity : Option ℚ
  specificity : Option ℚ
  balancedAcc : Option ℚ
  precision : Option ℚ
  recallScore : Option ℚ
  f1 : Option ℚ
deriving DecidableEq

/-- Classification branch of `MLPTorchModel.get_all_stats` (lines
205-230), in source order: AUC from the unthresholded scores first (so
its exceptions surface before anything else), then thresholding at 0.5,
the confusion matrix, and the ratio metrics. -/
def getAllStatsClassification (y_hat y : List ℚ) : Except PyErr ClsStats :=
  match rocAucScore y y_hat with
  | .error e => .error e
  | .ok auc =>
      let yh := y_hat.map thresholdLabel
      match confusionCounts01 y yh with
      | .error e => .error e
      | .ok (tn, fp, fnCount, tp) =>
          let sensitivity := odivQ tp (tp + fnCount)
          let specificity := odivQ tn (tn + fp)
          let precision := odivQ tp (tp + fp)
          let recallScore := odivQ tp (tp + fnCount)
          .ok { accuracy := odivQ ((tp : ℚ) + tn) ((fp : ℚ) + fnCount + tp + tn)
                auc := some auc
                sensitivity := sensitivity
                specificity := specificity
                balancedAcc := odivO (oadd sensitivity specificity) (some 2)
                precision := precision
                recallScore := recallScore
                f1 := odivO (omul (some 2) (omul precision recallScore)) (oadd precision recallScore) }

/-! ### Helper lemmas on lists -/

theorem mem_zip_self {α : Type} {l : List α} {p : α × α} (h : p ∈ l.zip l) :
    p.1 = p.2 := by
  induction l with
  | nil => simp at h
  | cons a t ih =>
      rw [List.zip_cons_cons] at h
      rcases List.mem_cons.mp h with h1 | h2
      · subst h1; rfl
      · exact ih h2

theorem self_mem_zip {α : Type} {a : α} {l : List α} (h : a ∈ l) :
    (a, a) ∈ l.zip l := by
  induction l with
  | nil => cases h
  | cons b t ih =>
      rw [List.zip_cons_cons]
      rcases List.mem_cons.mp h with h1 | h2
      · subst h1; exact List.mem_cons_self _ _
      · exact List.mem_cons_of_mem _ (ih h2)

theorem countP_zip_self {α : Type} (l : List α) (p : α × α → Bool) :
    (l.zip l).countP p = l.countP (fun a => p (a, a)) := by
  induction l with
  | nil => rfl
  | cons a t ih => rw [List.zip_cons_cons, List.countP_cons, List.countP_cons, ih]

theorem sum_map_const {α : Type} (l : List α) (f : α → ℚ) (c : ℚ)
    (h : ∀ x ∈ l, f x = c) : (l.map f).sum = c * l.length := by
  induction l with
  | nil => simp
  | cons a t ih =>
      rw [List.map_cons, List.sum_cons, h a (List.mem_cons_self a t),
        ih (fun x hx => h x (List.mem_cons_of_mem a hx)), List.length_cons]
      push_cast
      ring

theorem exists_zip_right {α β : Type} {a : α} {l1 : List α} {l2 : List β}
    (hlen : l2.length = l1.length) (h : a ∈ l1) : ∃ b, (a, b) ∈ l1.zip l2 := by
  induction l1 generalizing l2 with
  | nil => cases h
  | cons x t ih =>
      cases l2 with
      | nil => simp at hlen
      | cons y t2 =>
          rw [List.zip_cons_cons]
          rcases List.mem_cons.mp h with h1 | h2
          · exact ⟨y, by rw [h1]; exact List.mem_cons_self _ _⟩
          · obtain ⟨b, hb⟩ := ih (by simpa using hlen) h2
            exact ⟨b, List.mem_cons_of_mem _ hb⟩

theorem map_threshold_binary (y : List ℚ) (h : ∀ v ∈ y, v = 0 ∨ v = 1) :
    y.map thresholdLabel = y := by
  induction y with
  | nil => rfl
  | cons a t ih =>
      have ha : thresholdLabel a = a := by
        rcases h a (List.mem_cons_self _ _) with h0 | h1
        · rw [h0]; unfold thresholdLabel; norm_num
        · rw [h1]; unfold thresholdLabel; norm_num
      rw [List.map_cons, ha, ih (fun v hv => h v (List.mem_cons_of_mem a hv))]

/-! ### Facts about the embedded metrics evaluator -/

theorem posScores_self_all (y : List ℚ) : ∀ s ∈ posScores y y, s = 1 := by
  intro s hs
  obtain ⟨p, hp, hps⟩ := List.mem_filterMap.mp hs
  by_cases hh : p.1 = 1
  · rw [if_pos hh] at hps
    have hz := mem_zip_self hp
    have hs2 := Option.some.inj hps
    rw [← hs2, ← hz, hh]
  · rw [if_neg hh] at hps
    cases hps

theorem negScores_self_all (y : List ℚ) : ∀ t ∈ negScores y y, t = 0 := by
  intro t ht
  obtain ⟨p, hp, hps⟩ := List.mem_filterMap.mp ht
  by_cases hh : p.1 = 0
  · rw [if_pos hh] at hps
    have hz := mem_zip_self hp
    have ht2 := Option.some.inj hps
    rw [← ht2, ← hz, hh]
  · rw [if_neg hh] at hps
    cases hps

theorem one_mem_posScores_self {y : List ℚ} (h1 : (1:ℚ) ∈ y) :
    (1:ℚ) ∈ posScores y y :=
  List.mem_filterMap.mpr ⟨(1, 1), self_mem_zip h1, by norm_num⟩

theorem zero_mem_negScores_self {y : List ℚ} (h0 : (0:ℚ) ∈ y) :
    (0:ℚ) ∈ negScores y y :=
  List.mem_filterMap.mpr ⟨(0, 0), self_mem_zip h0, by norm_num⟩

/-- `roc_auc_score(y, y)` is exactly 1 for a binary target containing
both classes. -/
theorem rocAucScore_self (y : List ℚ) (hbin : ∀ v ∈ y, v = 0 ∨ v = 1)
    (h1 : (1:ℚ) ∈ y) (h0 : (0:ℚ) ∈ y) : rocAucScore y y = .ok 1 := by
  have hplen : (posScores y y).length ≠ 0 := by
    have hne := List.ne_nil_of_mem (one_mem_posScores_self h1)
    simpa [List.length_eq_zero] using hne
  have hnlen : (negScores y y).length ≠ 0 := by
    have hne := List.ne_nil_of_mem (zero_mem_negScores_self h0)
    simpa [List.length_eq_zero] using hne
  have hsum : ((posScores y y).map
      (fun s => ((negScores y y).map (fun t => aucCmp s t)).sum)).sum
      = ((negScores y y).length : ℚ) * ((posScores y y).length : ℚ) := by
    apply sum_map_const
    intro s hs
    have hinner : ∀ t ∈ negScores y y, aucCmp s t = 1 := by
      intro t ht
      rw [posScores_self_all y s hs, negScores_self_all y t ht]
      unfold aucCmp
      norm_num
    rw [sum_map_const _ _ 1 hinner, one_mul]
  unfold rocAucScore
  rw [if_pos hbin, if_neg (by push_neg; exact ⟨hplen, hnlen⟩), hsum]
  refine congrArg Except.ok ?_
  rw [mul_comm]
  exact div_self (mul_ne_zero (Nat.cast_ne_zero.mpr hplen) (Nat.cast_ne_zero.mpr hnlen))

/-- Confusion counts of a perfect binary classifier: no false positives
or negatives, and the true counts are the class frequencies. -/
theorem confusionCounts01_self (y : List ℚ) (h1 : (1:ℚ) ∈ y) (h0 : (0:ℚ) ∈ y) :
    confusionCounts01 y y =
      .ok (y.countP (fun v => v == 0), 0, 0, y.countP (fun v => v == 1)) := by
  unfold confusionCounts01
  rw [if_pos ⟨List.mem_append_left _ h0, List.mem_append_left _ h1⟩]
  refine congrArg Except.ok ?_
  simp only [Prod.mk.injEq]
  refine ⟨?_, ?_, ?_, ?_⟩
  · rw [countP_zip_self]
    have he : (fun (a : ℚ) => (a == 0 && a == 0)) = fun a => a == 0 := by
      funext a
      rw [Bool.and_self]
    rw [he]
  · rw [countP_zip_self]
    refine List.countP_eq_zero.mpr ?_
    intro a _
    simp only [Bool.and_eq_true, beq_iff_eq]
    rintro ⟨ha0, ha1⟩
    rw [ha0] at ha1
    norm_num at ha1
  · rw [countP_zip_self]
    refine List.countP_eq_zero.mpr ?_
    intro a _
    simp only [Bool.and_eq_true, beq_iff_eq]
    rintro ⟨ha1, ha0⟩
    rw [ha1] at ha0
    norm_num at ha0
  · rw [countP_zip_self]
    have he : (fun (a : ℚ) => (a == 1 && a == 1)) = fun a => a == 1 := by
      funext a
      rw [Bool.and_self]
    rw [he]

/-- C6 (amended): for every classification input in which the predicted
scores equal the actual binary labels for all samples AND both classes
occur among the actual labels, the returned Accuracy, Sensitivity,
Specificity, Balanced Accuracy, Precision, Recall and F1 are all 1 and
AUC is 1.  (Without both classes present, `get_all_stats` raises from
`roc_auc_score` instead of returning the scorecard.) -/
theorem c6_perfect_classifier_all_metrics_one (y : List ℚ)
    (hbin : ∀ v ∈ y, v = 0 ∨ v = 1) (h1 : (1:ℚ) ∈ y) (h0 : (0:ℚ) ∈ y) :
    getAllStatsClassification y y =
      .ok ⟨some 1, some 1, some 1, some 1, some 1, some 1, some 1, some 1⟩ := by
  have hroc := rocAucScore_self y hbin h1 h0
  have hth := map_threshold_binary y hbin
  have hcc := confusionCounts01_self y h1 h0
  have hn1 : y.countP (fun v => v == 1) ≠ 0 := by
    have hpos : 0 < y.countP (fun v => v == 1) :=
      List.countP_pos_iff.mpr ⟨1, h1, by simp⟩
    omega
  have hn0 : y.countP (fun v => v == 0) ≠ 0 := by
    have hpos : 0 < y.countP (fun v => v == 0) :=
      List.countP_pos_iff.mpr ⟨0, h0, by simp⟩
    omega
  have ha : ((y.countP (fun v => v == 1) : ℚ)) ≠ 0 := Nat.cast_ne_zero.mpr hn1
  have hb : ((y.countP (fun v => v == 0) : ℚ)) ≠ 0 := Nat.cast_ne_zero.mpr hn0
  have hapos : (0:ℚ) < (y.countP (fun v => v == 1) : ℚ) := by
    have := Nat.pos_of_ne_zero hn1
    exact_mod_cast this
  have hbpos : (0:ℚ) < (y.countP (fun v => v == 0) : ℚ) := by
    have := Nat.pos_of_ne_zero hn0
    exact_mod_cast this
  simp only [getAllStatsClassification, hroc, hth, hcc]
  simp only [Except.ok.injEq, ClsStats.mk.injEq, Nat.cast_zero, zero_add, add_zero]
  refine ⟨?_, trivial, ?_, ?_, ?_, ?_, ?_, ?_⟩
  · unfold odivQ
    rw [if_neg (by linarith)]
    rw [Option.some.injEq, div_self (by linarith)]
  · unfold odivQ
    rw [if_neg ha, Option.some.injEq, div_self ha]
  · unfold odivQ
    rw [if_neg hb, Option.some.injEq, div_self hb]
  · unfold odivQ oadd odivO
    rw [if_neg ha, if_neg hb, div_self ha, div_self hb]
    norm_num [odivQ]
  · unfold odivQ
    rw [if_neg ha, Option.some.injEq, div_self ha]
  · unfold odivQ
    rw [if_neg ha, Option.some.injEq, div_self ha]
  · unfold odivQ omul oadd odivO
    rw [if_neg ha, div_self ha]
    norm_num [odivQ]

/-- C7 (amended): when both classes occur among the actual labels and the
thresholded predictions contain no positives (all scores below 0.5, so
tp + fp = 0), `get_all_stats` returns a scorecard — it does not raise —
with the affected ratios Precision and F1 equal to NaN (`none`). -/
theorem c7_zero_denominator_nan (y_hat y : List ℚ)
    (hbin : ∀ v ∈ y, v = 0 ∨ v = 1) (h1 : (1:ℚ) ∈ y) (h0 : (0:ℚ) ∈ y)
    (hlen : y_hat.length = y.length) (hsmall : ∀ s ∈ y_hat, s < 1/2) :
    ∃ stats, getAllStatsClassification y_hat y = .ok stats ∧
      stats.precision = none ∧ stats.f1 = none := by
  have hth0 : ∀ t ∈ y_hat.map thresholdLabel, t = 0 := by
    intro t ht
    obtain ⟨s, hs, hst⟩ := List.mem_map.mp ht
    rw [← hst]
    unfold thresholdLabel
    rw [if_neg (by linarith [hsmall s hs])]
  have hplen : (posScores y y_hat).length ≠ 0 := by
    obtain ⟨b, hb⟩ := exists_zip_right hlen h1
    have hmem : b ∈ posScores y y_hat :=
      List.mem_filterMap.mpr ⟨(1, b), hb, by norm_num⟩
    have hne := List.ne_nil_of_mem hmem
    simpa [List.length_eq_zero] using hne
  have hnlen : (negScores y y_hat).length ≠ 0 := by
    obtain ⟨b, hb⟩ := exists_zip_right hlen h0
    have hmem : b ∈ negScores y y_hat :=
      List.mem_filterMap.mpr ⟨(0, b), hb, by norm_num⟩
    have hne := List.ne_nil_of_mem hmem
    simpa [List.length_eq_zero] using hne
  obtain ⟨aucv, hroc⟩ : ∃ a, rocAucScore y y_hat = .ok a := by
    unfold rocAucScore
    rw [if_pos hbin, if_neg (by push_neg; exact ⟨hplen, hnlen⟩)]
    exact ⟨_, rfl⟩
  have htp : ((y.zip (y_hat.map thresholdLabel)).countP
      (fun q => q.1 == 1 && q.2 == 1)) = 0 := by
    refine List.countP_eq_zero.mpr ?_
    intro q hq
    obtain ⟨q1, q2⟩ := q
    simp only [Bool.and_eq_true, beq_iff_eq]
    rintro ⟨-, hq2⟩
    have hzero := hth0 q2 (List.of_mem_zip hq).2
    rw [hq2] at hzero
    norm_num at hzero
  have hfp : ((y.zip (y_hat.map thresholdLabel)).countP
      (fun q => q.1 == 0 && q.2 == 1)) = 0 := by
    refine List.countP_eq_zero.mpr ?_
    intro q hq
    obtain ⟨q1, q2⟩ := q
    simp only [Bool.and_eq_true, beq_iff_eq]
    rintro ⟨-, hq2⟩
    have hzero := hth0 q2 (List.of_mem_zip hq).2
    rw [hq2] at hzero
    norm_num at hzero
  obtain ⟨⟨tn, fp, fnc, tp⟩, hcceq, hfp0, htp0⟩ :
      ∃ c, confusionCounts01 y (y_hat.map thresholdLabel) = .ok c ∧
        c.2.1 = 0 ∧ c.2.2.2 = 0 := by
    unfold confusionCounts01
    rw [if_pos ⟨List.mem_append_left _ h0, List.mem_append_left _ h1⟩]
    exact ⟨_, rfl, hfp, htp⟩
  simp only at hfp0 htp0
  subst hfp0
  subst htp0
  cases hres : getAllStatsClassification y_hat y with
  | error e =>
      simp only [getAllStatsClassification, hroc, hcceq] at hres
      exact Except.noConfusion hres
  | ok stats =>
      have h2 := hres
      simp only [getAllStatsClassification, hroc, hcceq] at h2
      have hrec := Except.ok.inj h2
      refine ⟨stats, rfl, ?_, ?_⟩
      · rw [← hrec]
        simp [odivQ]
      · rw [← hrec]
        simp [odivQ, omul, oadd, odivO]

/-! ### Shape behaviour of the forward pass -/

/-- For any constructor arguments, the forward pass of `SimpleMLP` maps a
batch of `n ≠ 1` feature vectors of width `num_features` to a
1-dimensional output of width `n`. -/
theorem forwardShape_batch (f hs : Nat) (cls : Bool) (d : ℚ) (ub : PyV)
    (bnk : String) (n : Nat) (hn : n ≠ 1) :
    (SimpleMLP.init f hs cls d ub bnk).forwardShape [n, f] = some [n] := by
  unfold SimpleMLP.forwardShape SimpleMLP.forwardOps SimpleMLP.init
  cases hub : ub.truthy <;> cases cls <;> by_cases hbn : bnk = "bn" <;>
    simp [TOp.shapeMap, NormLayer.numFeatures, List.filter, hn, hbn]

/-! ### The claims -/

/-- C1: the claim says a `SimpleMLP` constructed with any sampled dropout
value in {0.1, 0.2, 0.25, 0.5} has dropout layers dropping with exactly
that probability.  Evaluating the constructor at the sampled value 0.5
shows the final `dropout` attribute is the layer with hardcoded
probability 0.2 (line 56 overwrites the argument), which differs from
0.5: the configuration's dropout never reaches the network. -/
theorem c1_dropout_layer_ignores_configured_probability :
    (1/2 : ℚ) ∈ configSpaceDropout ∧
    (SimpleMLP.init 147 512 true (1/2) (.str "True") "bn").dropout.p = 1/5 ∧
    ((1 : ℚ)/2 ≠ 1/5) := by
  refine ⟨by norm_num [configSpaceDropout], rfl, by norm_num⟩

/-- C2: the claim says the sampled `use_bn` values are booleans and that
the forward pass applies no normalization when the flag is false.  The
sampled values are the strings `'False'` and `'True'`; the string
`'False'` is truthy in Python, so the forward pass of a network built
from the sampled value `'False'` still applies both normalization
layers, while a genuine boolean `False` (the constructor default) would
skip them. -/
theorem c2_use_bn_string_false_still_normalizes :
    PyV.str "False" ∈ configSpaceUseBn ∧
    PyV.truthy (.str "False") = true ∧
    ((SimpleMLP.init 147 256 true (1/5) (.str "False") "bn").forwardOps.any TOp.isNorm) = true ∧
    ((SimpleMLP.init 147 256 true (1/5) (.bool false) "bn").forwardOps.any TOp.isNorm) = false := by
  refine ⟨by simp [configSpaceUseBn], rfl, rfl, rfl⟩

/-- C3: the claim says a Model Manager constructed with `bs`/`num_epoches`
trains with the supplied batch size and epoch count.  Evaluating the
constructor shows the supplied values are overwritten: the default block
tests the keys `batch_size`/`num_epochs` (which are not the option
names), so `bs = 64` still yields `batch_size = 128` and
`num_epoches = 50` still yields `num_epochs = 100` — the attributes the
training loop reads.  The absent-option defaults 128/100 do hold. -/
theorem c3_bs_and_num_epoches_overwritten_by_defaults :
    (mlpTorchModelInit [("bs", .int 64)]).map (fun p => getAttr p.1 "batch_size")
      = .ok (some (.int 128)) ∧
    (mlpTorchModelInit [("num_epoches", .int 50)]).map (fun p => getAttr p.1 "num_epochs")
      = .ok (some (.int 100)) ∧
    (mlpTorchModelInit []).map
        (fun p => (getAttr p.1 "batch_size", getAttr p.1 "num_epochs"))
      = .ok (some (.int 128), some (.int 100)) := by
  refine ⟨rfl, rfl, rfl⟩

/-- C10: the claim says the `cpu` option never modifies the `gpu`
attribute.  With only `cpu` supplied the final state does match the
claim (`gpu = 1`, `cpu = 4`) — but only because the `gpu` default runs
after the `cpu` branch has already written `self.gpu`; supplying
`gpu = 2` together with `cpu = 4` leaves `gpu = 4`: the `cpu` branch
assigns `self.gpu = int(kwargs['cpu'])` (line 141). -/
theorem c10_cpu_option_overwrites_gpu :
    (mlpTorchModelInit [("cpu", .int 4)]).map
        (fun p => (getAttr p.1 "gpu", getAttr p.1 "cpu"))
      = .ok (some (.int 1), some (.int 4)) ∧
    (mlpTorchModelInit [("gpu", .int 2), ("cpu", .int 4)]).map
        (fun p => getAttr p.1 "gpu")
      = .ok (some (.int 4)) := by
  refine ⟨rfl, rfl⟩

/-- C9 (counterexample): the claim asserts output width `n` for every
batch width including `n = 1`.  For a single-sample batch the trailing
`squeeze()` removes the batch dimension as well (it has size 1), so the
forward pass yields a 0-dimensional scalar (shape `[]`), not a width-1
batch (shape `[1]`). -/
theorem c9_single_sample_squeezed_to_scalar :
    (SimpleMLP.init 147 256 true (1/5) (.bool false) "bn").forwardShape [1, 147]
      = some [] ∧
    some ([] : Shape) ≠ some [1] := by
  refine ⟨rfl, by simp⟩

/-- C9 (amended): for every batch of `n ≥ 2` fixed-width feature vectors
and every sampled hidden_size/dropout/use_bn/normalization-kind
configuration, the forward pass returns a 1-dimensional output of width
exactly `n` (one scalar per sample); the `n = 1` case instead collapses
to a 0-dimensional scalar. -/
theorem c9_output_width_matches_batch (n f hs : Nat) (d : ℚ) (ub : PyV)
    (bnk : String) (cls : Bool) (hn : 2 ≤ n)
    (hhs : hs ∈ configSpaceHidden) (hd : d ∈ configSpaceDropout)
    (hub : ub ∈ configSpaceUseBn) (hbn : bnk ∈ configSpaceBn) :
    (SimpleMLP.init f hs cls d ub bnk).forwardShape [n, f] = some [n] :=
  forwardShape_batch f hs cls d ub bnk n (by omega)

/-- Witness for C9 (amended) at `n = 2` with a sampled configuration. -/
theorem c9_output_width_matches_batch_witness :
    (SimpleMLP.init 147 128 true (1/10) (.str "False") "in").forwardShape [2, 147]
      = some [2] :=
  c9_output_width_matches_batch 2 147 128 (1/10) (.str "False") "in" true
    (by norm_num) (by simp [configSpaceHidden]) (by norm_num [configSpaceDropout])
    (by simp [configSpaceUseBn]) (by simp [configSpaceBn])

/-- C4: for every keyword-argument list with which the Model Manager
constructor succeeds, calling `predict` before any successful `fit`
fails with an `AttributeError` (the stored scaler is still `None`, so
`self.scaler.transform` raises) — it never returns silently. -/
theorem c4_predict_before_fit_raises (kwargs : List (String × PyV))
    (attrs : Attrs) (log : List String)
    (h : mlpTorchModelInit kwargs = .ok (attrs, log)) :
    predictStoredAccess attrs = .error .attributeError := by
  unfold mlpTorchModelInit at h
  cases hf : List.foldlM initStep (([] : Attrs), ([] : List String)) kwargs with
  | error e =>
      rw [hf] at h
      exact Except.noConfusion h
  | ok p =>
      obtain ⟨attrs0, log0⟩ := p
      rw [hf] at h
      have h2 := Except.ok.inj h
      injection h2 with h3 h4
      rw [← h3]
      unfold predictStoredAccess
      rw [getAttr_setAttr_ne _ _ (by decide), getAttr_setAttr_ne _ _ (by decide),
        getAttr_setAttr_self]

/-- Witness for C4: the default-constructed Model Manager state. -/
theorem c4_predict_before_fit_raises_witness :
    predictStoredAccess
      [("task", .str "Regression"), ("gpu", .int 1), ("cpu", .int 1),
       ("batch_size", .int 128), ("num_epochs", .int 100),
       ("classification", .bool false), ("mdl", .pynone), ("scaler", .pynone),
       ("stats", .pynone), ("param", .pynone)] = .error .attributeError :=
  c4_predict_before_fit_raises []
    [("task", .str "Regression"), ("gpu", .int 1), ("cpu", .int 1),
     ("batch_size", .int 128), ("num_epochs", .int 100),
     ("classification", .bool false), ("mdl", .pynone), ("scaler", .pynone),
     ("stats", .pynone), ("param", .pynone)] [] rfl

/-- C5: for every task value other than the strings `'Classification'`
and `'Regression'`, the Model Manager constructor raises a `ValueError`
immediately (so nothing is trained), and with no task option the task
defaults to `'Regression'`. -/
theorem c5_invalid_task_raises (v : PyV)
    (h1 : v ≠ .str "Classification") (h2 : v ≠ .str "Regression") :
    mlpTorchModelInit [("task", v)] =
      .error (.valueError "Only Classification and Regression tasks are supported.") ∧
    (mlpTorchModelInit []).map (fun p => getAttr p.1 "task")
      = .ok (some (.str "Regression")) := by
  constructor
  · have hstep : initStep ([], []) ("task", v) =
        .error (.valueError "Only Classification and Regression tasks are supported.") := by
      unfold initStep
      simp [validParameters, h1, h2]
    have hfold : List.foldlM initStep (([] : Attrs), ([] : List String)) [("task", v)]
        = .error (.valueError "Only Classification and Regression tasks are supported.") := by
      rw [List.foldlM_cons, hstep]
      rfl
    unfold mlpTorchModelInit
    rw [hfold]
  · rfl

/-- Witness for C5 at the invalid task value `'foo'`. -/
theorem c5_invalid_task_raises_witness :
    mlpTorchModelInit [("task", PyV.str "foo")] =
      .error (.valueError "Only Classification and Regression tasks are supported.") ∧
    (mlpTorchModelInit []).map (fun p => getAttr p.1 "task")
      = .ok (some (.str "Regression")) :=
  c5_invalid_task_raises (.str "foo") (by decide) (by decide)

/-- C6 (counterexample): the claim quantifies over every perfect-
classifier input, but on the perfect single-class input
`y_hat = y = [1]` the evaluator does not return the all-ones scorecard:
`roc_auc_score` raises because only one class is present. -/
theorem c6_counterexample_single_class_raises :
    getAllStatsClassification [1] [1] =
      .error (.valueError "Only one class present in y_true. ROC AUC score is not defined in that case.") := rfl

/-- Witness for C6 (amended) on the perfect two-class input `[1, 0]`. -/
theorem c6_perfect_classifier_all_metrics_one_witness :
    getAllStatsClassification [1, 0] [1, 0] =
      .ok ⟨some 1, some 1, some 1, some 1, some 1, some 1, some 1, some 1⟩ :=
  c6_perfect_classifier_all_metrics_one [1, 0] (by decide) (by decide) (by decide)

/-- C7 (counterexample): the claim says zero-denominator inputs never
raise, but the input with no predicted positives (`tp + fp = 0`) and
all-negative actual labels raises a `ValueError` from `roc_auc_score`
before any ratio is computed. -/
theorem c7_counterexample_single_class_raises :
    ([1/5, 3/10] : List ℚ).map thresholdLabel = [0, 0] ∧
    getAllStatsClassification [1/5, 3/10] [0, 0] =
      .error (.valueError "Only one class present in y_true. ROC AUC score is not defined in that case.") := by
  refine ⟨by norm_num [thresholdLabel], rfl⟩

/-- Witness for C7 (amended): both classes present, all scores below
the threshold. -/
theorem c7_zero_denominator_nan_witness :
    ∃ stats, getAllStatsClassification [1/5, 1/5] [0, 1] = .ok stats ∧
      stats.precision = none ∧ stats.f1 = none :=
  c7_zero_denominator_nan [1/5, 1/5] [0, 1] (by decide) (by decide) (by decide)
    (by decide) (by norm_num)

/-- C8 (counterexample): the claim says the offending option's attribute
is left at its default, but constructing with `gpu = 'abc'` (for which
`int()` raises `ValueError`) leaves the `gpu` attribute holding the raw
string `'abc'`, not the default `1`: the catch-all
`self.__dict__.update` stores the raw value after the warning. -/
theorem c8_counterexample_raw_value_stored :
    strToIntPy "abc" = none ∧
    (mlpTorchModelInit [("gpu", .str "abc")]).map (fun p => getAttr p.1 "gpu")
      = .ok (some (.str "abc")) ∧
    some (PyV.str "abc") ≠ some (PyV.int 1) := by
  refine ⟨rfl, rfl, by decide⟩

/-- C8 (amended): for every string on which `int()` raises `ValueError`,
construction with that string for an integer-typed option does not
raise and emits the warning; but the option's own attribute then holds
the raw string (via `self.__dict__.update`), so `gpu` and `cpu` end up
holding the non-integer value, while the separately named attributes
the training loop reads, `batch_size` and `num_epochs`, remain at their
defaults 128 and 100. -/
theorem c8_nonint_option_warns_without_raising (s : String)
    (h : strToIntPy s = none) :
    (mlpTorchModelInit [("gpu", .str s)]).map (fun p => (getAttr p.1 "gpu", p.2))
      = .ok (some (.str s), [intWarnMsg]) ∧
    (mlpTorchModelInit [("cpu", .str s)]).map (fun p => (getAttr p.1 "cpu", getAttr p.1 "gpu"))
      = .ok (some (.str s), some (.int 1)) ∧
    (mlpTorchModelInit [("bs", .str s)]).map (fun p => (getAttr p.1 "batch_size", getAttr p.1 "bs"))
      = .ok (some (.int 128), some (.str s)) ∧
    (mlpTorchModelInit [("num_epoches", .str s)]).map (fun p => (getAttr p.1 "num_epochs", getAttr p.1 "num_epoches"))
      = .ok (some (.int 100), some (.str s)) := by
  have hconv : PyV.toIntPy (.str s) = .error (.valueError "invalid literal for int") := by
    simp only [PyV.toIntPy]
    rw [h]
  refine ⟨?_, ?_, ?_, ?_⟩ <;>
    simp [mlpTorchModelInit, List.foldlM_cons, List.foldlM_nil, initStep,
      tryIntAssign, hconv, validParameters, setAttr, getAttr, intWarnMsg,
      Except.map]

/-- Witness for C8 (amended) at the string `'abc'`. -/
theorem c8_nonint_option_warns_without_raising_witness :
    (mlpTorchModelInit [("gpu", .str "abc")]).map (fun p => (getAttr p.1 "gpu", p.2))
      = .ok (some (.str "abc"), [intWarnMsg]) ∧
    (mlpTorchModelInit [("cpu", .str "abc")]).map (fun p => (getAttr p.1 "cpu", getAttr p.1 "gpu"))
      = .ok (some (.str "abc"), some (.int 1)) ∧
    (mlpTorchModelInit [("bs", .str "abc")]).map (fun p => (getAttr p.1 "batch_size", getAttr p.1 "bs"))
      = .ok (some (.int 128), some (.str "abc")) ∧
    (mlpTorchModelInit [("num_epoches", .str "abc")]).map (fun p => (getAttr p.1 "num_epochs", getAttr p.1 "num_epoches"))
      = .ok (some (.int 100), some (.str "abc")) :=
  c8_nonint_option_warns_without_raising "abc" rfl

end SpareScores
